import Mathlib

/-!
Verification of the resource-generation pipeline of `capacitor-resources`
(`src/index.js`): platform selection, input validation, and the table-driven
transform engine (resize for icons, center-crop for splash screens).

Shallow embedding conventions:
* JavaScript string splitting on a comma (the split method on a comma) is
  embedded as `splitComma`, operating on the character list of the string.
* Promise chains (`.then` sequencing with rejection short-circuit) are embedded
  as `Except String` computations; a rejected promise is `Except.error`.
* External collaborators (the Jimp image codec, the filesystem) are parameters:
  an `Env` supplies the decode result per path, directory existence, and the
  per-path write outcome.  Image transforms (`resize`, `crop`) are universally
  quantified functions, since their pixel semantics live in the external
  library, not in `src/index.js`.
* JavaScript numbers are embedded as exact values: `Nat`/`Int` where the code
  only ever holds integers, and `Rat` for the crop-offset arithmetic
  `(image.bitmap.width - definition.width) / 2`, whose result need not be an
  integer (JS `/` is not integer division; values of the form k/2 at these
  magnitudes are exact in binary floating point, so `Rat` is faithful).
-/

namespace CapacitorResources

/-- A decoded bitmap as the code observes it through Jimp: a width, a height
(`image.bitmap.width` / `image.bitmap.height`), and abstract pixel content. -/
structure Bitmap where
  width : Nat
  height : Nat
  data : List Nat
deriving DecidableEq, Repr

/-- The `settings.platforms` value as JavaScript sees it: `undefined` (flag not
given), an actual string, or any non-string value (commander can yield `true`
for a bare flag).  A non-string value carries its JS truthiness. -/
inductive PlatformsSetting where
  | undef : PlatformsSetting
  | str : String → PlatformsSetting
  | nonString : Bool → PlatformsSetting
deriving DecidableEq, Repr

/-- JS truthiness of a `settings.platforms` value (`!settings.platforms`
negated): `undefined` is falsy, a string is truthy iff nonempty. -/
def jsTruthy : PlatformsSetting → Bool
  | .undef => false
  | .str s => s ≠ ""
  | .nonString b => b

/-- JS test that the type of `settings.platforms` is the string type. -/
def jsIsString : PlatformsSetting → Bool
  | .str _ => true
  | _ => false

/-- The `g_settings` object (`src/index.js` lines 278-283). -/
structure Settings where
  iconfile : String
  splashfile : String
  platforms : PlatformsSetting
  outputdirectory : String
deriving DecidableEq, Repr

/-- The keys of the `PLATFORMS` registry (`src/index.js` lines 37-50), in
JS object-literal insertion order, which is what `_.keys` returns. -/
def platformsKeys : List String := ["android", "ios", "windows", "blackberry10"]

/-- JS comma split on the character list: `[] ↦ [""]`,
adjacent separators yield empty tokens, a trailing separator yields a
trailing empty token. -/
def splitCommaChars : List Char → List (List Char)
  | [] => [[]]
  | c :: cs =>
    match splitCommaChars cs with
    | [] => [[]]
    | t :: ts => if c = ',' then [] :: t :: ts else (c :: t) :: ts

/-- JS comma split for a Lean `String`. -/
def splitComma (s : String) : List String :=
  (splitCommaChars s.toList).map (fun cs => String.mk cs)

/-- The filter branch of `checkPlatforms` (`src/index.js` lines 77-96):
split the filter on commas, partition the tokens into known (the `forEach`
with `_.find` over the registry keys pushing onto `platformsToProcess`) and
unknown (pushed onto `platformsUnknown`), reject when any token is unknown,
resolve with the known tokens in input order otherwise.  The JS error string
concatenates the unknown-token array, which joins on commas. -/
def filterPlatforms (s : String) : Except String (List String) :=
  if ((splitComma s).filter (fun p => !platformsKeys.contains p)).length > 0 then
    Except.error ("Bad platforms: " ++
      String.intercalate "," ((splitComma s).filter (fun p => !platformsKeys.contains p)))
  else
    Except.ok ((splitComma s).filter (fun p => platformsKeys.contains p))

/-- Function `checkPlatforms` (`src/index.js` lines 69-97).  If `settings.platforms`
is falsy or not a string, resolves with all registry keys; otherwise runs the
comma-split filter. -/
def checkPlatforms (platforms : PlatformsSetting) : Except String (List String) :=
  if ¬ jsTruthy platforms ∨ ¬ jsIsString platforms then
    Except.ok platformsKeys
  else
    match platforms with
    | .str s => filterPlatforms s
    | _ => Except.ok platformsKeys

/-- The dimension test of `checkIconFile` (`src/index.js` line 123): the
decoded icon is accepted iff `width === 1024 && width === height`; otherwise
the promise is rejected with the message `Bad image format`. -/
def checkIconDims (image : Bitmap) : Except String Bitmap :=
  if image.width = 1024 ∧ image.width = image.height then
    Except.ok image
  else
    Except.error "Bad image format"

/-- The dimension test of `checkSplashFile` (`src/index.js` line 146): the
decoded splash is accepted iff `width === 2732 && width === height`. -/
def checkSplashDims (image : Bitmap) : Except String Bitmap :=
  if image.width = 2732 ∧ image.width = image.height then
    Except.ok image
  else
    Except.error "Bad image format"

/-- An entry of a platform definition table.  Icon definitions carry `name`
and `size`; splash definitions carry `name`, `width` and `height`.  The
tables themselves are JSON data outside `src/index.js`. -/
structure OutputDefinition where
  name : String
  size : Nat
  width : Nat
  height : Nat
deriving DecidableEq, Repr

/-- The crop rectangle computed by `transformSplash` (`src/index.js` lines
203-206): `x = (image.bitmap.width - definition.width) / 2`,
`y = (image.bitmap.height - definition.height) / 2`,
`width = definition.width`, `height = definition.height`.  The divisions are
JS number divisions, embedded exactly over `Rat` (results of the form k/2 at
these magnitudes are exact in binary floating point). -/
def splashCropRect (imageWidth imageHeight defWidth defHeight : ℤ) :
    ℚ × ℚ × ℤ × ℤ :=
  (((imageWidth : ℚ) - (defWidth : ℚ)) / 2,
   ((imageHeight : ℚ) - (defHeight : ℚ)) / 2,
   defWidth, defHeight)

/-- Whether an `Except` computation resolved (promise fulfilled rather than
rejected). -/
def resolved : Except String Bitmap → Bool
  | .ok _ => true
  | .error _ => false

/-- Node `path.join` of two segments.  The normalization done by the path
library is an external concern; joining appends the separator between the
components, which is exact for the separator-free components the tool uses. -/
def pathJoin (a b : String) : String := a ++ "/" ++ b

/-- A definition-set config as loaded from the registry JSON
(`require(def)` in `generate`, `src/index.js` line 247): a platform id, a
`type` tag (`icon` or `splash`), an output subpath, and the ordered
definition list. -/
structure Config where
  platform : String
  type : String
  path : String
  definitions : List OutputDefinition
deriving DecidableEq, Repr

/-- An observable filesystem effect of the transform engine: `fs.ensureDir`
(recursive directory creation) or a completed image write. -/
inductive FsEvent where
  | ensureDir : String → FsEvent
  | write : String → FsEvent
deriving DecidableEq, Repr

/-- The `Q.mapSeries` loop over the definitions of one config (`src/index.js`
lines 224-232 with the transforms at 182-220), seen through its filesystem
effects.  `writeErr` is the outcome the image library reports for writing a
given path (`none` = success): a successful write emits a `write` event; a
failing write or transform produces no file and its thrown error aborts the
series.  A `config.type` matching neither `switch` case performs no write and
the series continues. -/
def runDefinitions (writeErr : String → Option String) (platformPath ty : String) :
    List OutputDefinition → List FsEvent × Option String
  | [] => ([], none)
  | d :: ds =>
    if ty = "icon" ∨ ty = "splash" then
      match writeErr (pathJoin platformPath d.name) with
      | some e => ([], some e)
      | none =>
        (FsEvent.write (pathJoin platformPath d.name) ::
            (runDefinitions writeErr platformPath ty ds).1,
          (runDefinitions writeErr platformPath ty ds).2)
    else
      runDefinitions writeErr platformPath ty ds

/-- Function `generateForConfig` (`src/index.js` lines 179-238), filesystem view:
compute `platformPath = path.join(settings.outputdirectory, config.path)`,
`fs.ensureDir(platformPath)`, then run the definition series; each output
file path is `path.join(platformPath, definition.name)`. -/
def generateForConfig (writeErr : String → Option String) (settings : Settings)
    (config : Config) : List FsEvent × Option String :=
  (FsEvent.ensureDir (pathJoin settings.outputdirectory config.path) ::
      (runDefinitions writeErr (pathJoin settings.outputdirectory config.path)
        config.type config.definitions).1,
    (runDefinitions writeErr (pathJoin settings.outputdirectory config.path)
      config.type config.definitions).2)

/-- The outer `Q.mapSeries` of `generate` over the selected configs
(`src/index.js` lines 240-258): configs run strictly in order and the first
config whose series fails aborts the remaining configs. -/
def generate (writeErr : String → Option String) (settings : Settings) :
    List Config → List FsEvent × Option String
  | [] => ([], none)
  | config :: configs =>
    match (generateForConfig writeErr settings config).2 with
    | some e => ((generateForConfig writeErr settings config).1, some e)
    | none =>
      ((generateForConfig writeErr settings config).1 ++
          (generate writeErr settings configs).1,
        (generate writeErr settings configs).2)

/-- The external collaborators of one run: the Jimp decode result per path,
`fs.pathExists`, and the per-path write outcome. -/
structure Env where
  readImage : String → Except String Bitmap
  pathExists : String → Bool
  writeErr : String → Option String

/-- Function `checkIconFile` (`src/index.js` lines 116-137): decode
`settings.iconfile` (a decode failure rejects with the decode error), then
apply the dimension test. -/
def checkIconFile (env : Env) (settings : Settings) : Except String Bitmap :=
  match env.readImage settings.iconfile with
  | .ok image => checkIconDims image
  | .error e => .error e

/-- Function `checkSplashFile` (`src/index.js` lines 139-160): decode
`settings.splashfile`, then apply the dimension test. -/
def checkSplashFile (env : Env) (settings : Settings) : Except String Bitmap :=
  match env.readImage settings.splashfile with
  | .ok image => checkSplashDims image
  | .error e => .error e

/-- Function `checkOutPutDir` (`src/index.js` lines 164-177): succeed iff the output
directory exists. -/
def checkOutPutDir (env : Env) (settings : Settings) : Except String Unit :=
  if env.pathExists settings.outputdirectory then
    Except.ok ()
  else
    Except.error ("Output directory not found: " ++ settings.outputdirectory)

/-- The four validation stages of `check` (`src/index.js` lines 56-67), in
the order the promise chain runs them. -/
inductive Stage where
  | platforms : Stage
  | icon : Stage
  | splash : Stage
  | outputDir : Stage
deriving DecidableEq, Repr

/-- The stage order of `check`: `checkPlatforms`, then `getImages` (icon
first, then splash), then `checkOutPutDir`. -/
def stageOrder : List Stage := [Stage.platforms, Stage.icon, Stage.splash, Stage.outputDir]

/-- Function `check` (`src/index.js` lines 56-67) instrumented with the list of stages
that actually ran: each `.then` link runs only if every earlier link
resolved, and a rejection short-circuits the rest of the chain. -/
def runCheck (env : Env) (settings : Settings) :
    List Stage × Except String (List String × Bitmap × Bitmap) :=
  match checkPlatforms settings.platforms with
  | .error e => ([Stage.platforms], .error e)
  | .ok plats =>
    match checkIconFile env settings with
    | .error e => ([Stage.platforms, Stage.icon], .error e)
    | .ok icon =>
      match checkSplashFile env settings with
      | .error e => ([Stage.platforms, Stage.icon, Stage.splash], .error e)
      | .ok splash =>
        match checkOutPutDir env settings with
        | .error e => (stageOrder, .error e)
        | .ok _ => (stageOrder, .ok (plats, icon, splash))

/-- The whole pipeline (`src/index.js` lines 290-292):
`check(g_settings).then(() => generate(g_imageObjects, g_settings))`, with the
registry lookup `PLATFORMS[platform].definitions` + `require(def)` supplied as
`configsOf` (the definition tables are JSON data outside `src/index.js`).
Returns the filesystem events of the run and the settled outcome. -/
def pipeline (env : Env) (configsOf : List String → List Config)
    (settings : Settings) : List FsEvent × Except String Unit :=
  match (runCheck env settings).2 with
  | .error e => ([], .error e)
  | .ok (plats, _, _) =>
    ((generate env.writeErr settings (configsOf plats)).1,
      match (generate env.writeErr settings (configsOf plats)).2 with
      | some e => .error e
      | none => .ok ())

/-- The bitmap a fresh Jimp handle would hold; only used as the out-of-range
default of the reference heap. -/
def emptyBitmap : Bitmap := ⟨0, 0, []⟩

/-- Read a cell of the image heap (JS object references: `imageObj.icon`,
`imageObj.splash` and the per-definition clones are cells of this heap). -/
def heapGet : List Bitmap → Nat → Bitmap
  | [], _ => emptyBitmap
  | b :: _, 0 => b
  | _ :: t, n + 1 => heapGet t n

/-- Overwrite a cell of the image heap in place (a Jimp `resize`/`crop`
mutates the object it is called on). -/
def heapSet : List Bitmap → Nat → Bitmap → List Bitmap
  | [], _, _ => []
  | _ :: t, 0, b => b :: t
  | h :: t, n + 1, b => h :: heapSet t n b

/-- The image-state effect of `transformIcon` (`src/index.js` lines 182-197):
`imageObj.icon.clone()` allocates a fresh cell holding a copy of the source
bitmap, then `resize(definition.size, definition.size)` mutates that fresh
cell through the externally supplied resize operation. -/
def transformIconImage (resizeOp : Nat → Nat → Bitmap → Bitmap)
    (heap : List Bitmap) (iconRef : Nat) (d : OutputDefinition) : List Bitmap :=
  let image := heapGet heap iconRef
  heapSet (heap ++ [image]) heap.length (resizeOp d.size d.size image)

/-- The image-state effect of `transformSplash` (`src/index.js` lines
199-220): clone the splash source, compute the centered crop rectangle from
the dimensions of the clone, then `crop` mutates the clone through the externally
supplied crop operation. -/
def transformSplashImage (cropOp : ℚ → ℚ → ℤ → ℤ → Bitmap → Bitmap)
    (heap : List Bitmap) (splashRef : Nat) (d : OutputDefinition) : List Bitmap :=
  let image := heapGet heap splashRef
  let rect := splashCropRect image.width image.height d.width d.height
  heapSet (heap ++ [image]) heap.length
    (cropOp rect.1 rect.2.1 rect.2.2.1 rect.2.2.2 image)

/-- One `Q.mapSeries` step of the transform engine as it acts on image state:
the `switch (config.type)` dispatch of `src/index.js` lines 227-232. -/
def generateStep (resizeOp : Nat → Nat → Bitmap → Bitmap)
    (cropOp : ℚ → ℚ → ℤ → ℤ → Bitmap → Bitmap) (iconRef splashRef : Nat)
    (heap : List Bitmap) (step : String × OutputDefinition) : List Bitmap :=
  if step.1 = "icon" then
    transformIconImage resizeOp heap iconRef step.2
  else if step.1 = "splash" then
    transformSplashImage cropOp heap splashRef step.2
  else
    heap

/-- The image-state effect of processing a sequence of (config type,
definition) steps in order. -/
def generateImages (resizeOp : Nat → Nat → Bitmap → Bitmap)
    (cropOp : ℚ → ℚ → ℤ → ℤ → Bitmap → Bitmap) (iconRef splashRef : Nat)
    (heap : List Bitmap) : List (String × OutputDefinition) → List Bitmap
  | [] => heap
  | st :: sts =>
      generateImages resizeOp cropOp iconRef splashRef
        (generateStep resizeOp cropOp iconRef splashRef heap st) sts

/-- Concrete sample data for witnesses: an icon definition set for android. -/
def defIconA : OutputDefinition := ⟨"a.png", 36, 0, 0⟩

/-- Concrete sample data for witnesses: second icon definition. -/
def defIconB : OutputDefinition := ⟨"b.png", 48, 0, 0⟩

/-- Concrete sample data for witnesses: third icon definition. -/
def defIconC : OutputDefinition := ⟨"c.png", 72, 0, 0⟩

/-- Concrete sample data for witnesses: an icon config for android. -/
def cfgIconA : Config := ⟨"android", "icon", "icons/android", [defIconA, defIconB, defIconC]⟩

/-- Concrete sample data for witnesses: a splash config for android. -/
def cfgSplashA : Config := ⟨"android", "splash", "splash/android", [⟨"s.png", 0, 320, 480⟩]⟩

/-- Concrete sample data for witnesses: default-style settings with no
platform filter. -/
def sampleSettings : Settings := ⟨"icon.png", "splash.png", PlatformsSetting.undef, "out"⟩

/-- Concrete sample data for witnesses: settings whose platform filter holds
the unknown token `bogus`. -/
def settingsUnknown : Settings :=
  ⟨"icon.png", "splash.png", PlatformsSetting.str "android,bogus", "out"⟩

/-- Concrete sample data for witnesses: a write outcome that fails exactly on
the second android icon file. -/
def wFail : String → Option String :=
  fun p => if p = "out/icons/android/b.png" then some "write failed" else none

/-- Concrete sample data for witnesses: an environment with valid sources, an
existing output directory, and all writes succeeding. -/
def envGood : Env :=
  ⟨fun p => if p = "icon.png" then .ok ⟨1024, 1024, []⟩ else .ok ⟨2732, 2732, []⟩,
   fun _ => true, fun _ => none⟩

/-- Concrete sample data for witnesses: an environment whose icon decodes to
a 512x512 bitmap. -/
def envBadIcon : Env :=
  ⟨fun p => if p = "icon.png" then .ok ⟨512, 512, []⟩ else .ok ⟨2732, 2732, []⟩,
   fun _ => true, fun _ => none⟩

/-- Concrete sample data for witnesses: an environment with valid sources
whose writes fail exactly on the second android icon file. -/
def envWriteFail : Env :=
  ⟨fun p => if p = "icon.png" then .ok ⟨1024, 1024, []⟩ else .ok ⟨2732, 2732, []⟩,
   fun _ => true, wFail⟩

/-- Concrete sample data for witnesses: a registry lookup serving the android
icon config. -/
def configsOfSample : List String → List Config := fun _ => [cfgIconA]

/-- Concrete sample data for witnesses: a registry lookup serving the android
icon and splash configs. -/
def configsOfFail : List String → List Config := fun _ => [cfgIconA, cfgSplashA]

/-- Concrete sample data for witnesses: the initial image heap holding the
decoded icon (cell 0) and splash (cell 1). -/
def heapInit : List Bitmap := [⟨1024, 1024, [1, 2]⟩, ⟨2732, 2732, [3]⟩]

/-- Concrete sample data for witnesses: a resize operation. -/
def resizeOpSample : Nat → Nat → Bitmap → Bitmap := fun w h _ => ⟨w, h, [9]⟩

/-- Concrete sample data for witnesses: a crop operation. -/
def cropOpSample : ℚ → ℚ → ℤ → ℤ → Bitmap → Bitmap :=
  fun _ _ w h _ => ⟨w.toNat, h.toNat, [7]⟩

/-- Concrete sample data for witnesses: one icon step and one splash step. -/
def stepsSample : List (String × OutputDefinition) :=
  [("icon", defIconA), ("splash", ⟨"s.png", 0, 320, 480⟩)]

/-- Claim C1: for every decoded icon image, validation succeeds iff its width
and height both equal 1024; symmetrically, splash validation succeeds iff
width and height both equal 2732. -/
theorem icon_splash_dims_iff (image : Bitmap) :
    (resolved (checkIconDims image) = true ↔
      image.width = 1024 ∧ image.height = 1024) ∧
    (resolved (checkSplashDims image) = true ↔
      image.width = 2732 ∧ image.height = 2732) := by
  constructor
  · by_cases h : image.width = 1024 ∧ image.width = image.height
    · have he : checkIconDims image = Except.ok image := by
        unfold checkIconDims
        rw [if_pos h]
      rw [he]
      constructor
      · intro _
        exact ⟨h.1, h.2 ▸ h.1⟩
      · intro _
        rfl
    · have he : checkIconDims image = Except.error "Bad image format" := by
        unfold checkIconDims
        rw [if_neg h]
      rw [he]
      constructor
      · intro hc
        exact absurd hc (by decide)
      · intro hc
        exact absurd ⟨hc.1, hc.1.trans hc.2.symm⟩ h
  · by_cases h : image.width = 2732 ∧ image.width = image.height
    · have he : checkSplashDims image = Except.ok image := by
        unfold checkSplashDims
        rw [if_pos h]
      rw [he]
      constructor
      · intro _
        exact ⟨h.1, h.2 ▸ h.1⟩
      · intro _
        rfl
    · have he : checkSplashDims image = Except.error "Bad image format" := by
        unfold checkSplashDims
        rw [if_neg h]
      rw [he]
      constructor
      · intro hc
        exact absurd hc (by decide)
      · intro hc
        exact absurd ⟨hc.1, hc.1.trans hc.2.symm⟩ h

/-- Claim C1 witness at concrete inputs: a 1024x1023 icon is rejected and a
2732x2732 splash is accepted. -/
theorem icon_splash_dims_iff_witness :
    resolved (checkIconDims ⟨1024, 1023, []⟩) = false ∧
    resolved (checkSplashDims ⟨2732, 2732, []⟩) = true := by
  constructor
  · have h := (icon_splash_dims_iff ⟨1024, 1023, []⟩).1
    by_contra hne
    have ht : resolved (checkIconDims ⟨1024, 1023, []⟩) = true := by
      cases hr : resolved (checkIconDims ⟨1024, 1023, []⟩)
      · exact absurd hr hne
      · rfl
    exact absurd (h.mp ht).2 (by decide)
  · exact (icon_splash_dims_iff ⟨2732, 2732, []⟩).2.mpr ⟨rfl, rfl⟩

/-- Claim C6: when no platform filter is given, selection succeeds with all
registry keys in registry order: android, ios, windows, blackberry10. -/
theorem checkPlatforms_noFilter :
    checkPlatforms PlatformsSetting.undef =
      Except.ok ["android", "ios", "windows", "blackberry10"] ∧
    platformsKeys = ["android", "ios", "windows", "blackberry10"] := by
  constructor
  · rfl
  · rfl

/-- Helper: when every comma-token of the filter is a registry key, the
unknown-token list is empty and the filter resolves with the full token list
unchanged. -/
theorem filterPlatforms_allKnown (s : String)
    (h : ∀ t ∈ splitComma s, t ∈ platformsKeys) :
    filterPlatforms s = Except.ok (splitComma s) := by
  unfold filterPlatforms
  have h2 : (splitComma s).filter (fun p => !platformsKeys.contains p) = [] := by
    rw [List.filter_eq_nil_iff]
    intro a ha
    have hc : List.elem a platformsKeys = true := List.elem_iff.mpr (h a ha)
    have hcc : platformsKeys.contains a = true := hc
    simp [hcc]
    exact h a ha
  rw [h2]
  rw [if_neg (by decide)]
  have h1 : (splitComma s).filter (fun p => platformsKeys.contains p) = splitComma s := by
    rw [List.filter_eq_self]
    intro a ha
    exact List.elem_iff.mpr (h a ha)
  rw [h1]

/-- Claim C4: for every platform filter string whose comma-separated tokens
are all known registry keys, selection succeeds and returns exactly those
tokens, in the order the user supplied them, without deduplication (the
result is the token list itself). -/
theorem checkPlatforms_allKnown (s : String)
    (h : ∀ t ∈ splitComma s, t ∈ platformsKeys) :
    checkPlatforms (PlatformsSetting.str s) = Except.ok (splitComma s) := by
  have hs : s ≠ "" := by
    intro hempty
    subst hempty
    exact absurd (h "" (by decide)) (by decide)
  unfold checkPlatforms
  rw [if_neg]
  · exact filterPlatforms_allKnown s h
  · intro hor
    cases hor with
    | inl hl => exact hl (by simp [jsTruthy, hs])
    | inr hr => exact hr rfl

/-- Claim C4 witness: the filter `"ios,android,ios"` (out of registry order,
with a repeated token) selects exactly `["ios", "android", "ios"]`. -/
theorem checkPlatforms_allKnown_witness :
    (∀ t ∈ splitComma "ios,android,ios", t ∈ platformsKeys) ∧
    checkPlatforms (PlatformsSetting.str "ios,android,ios") =
      Except.ok ["ios", "android", "ios"] := by
  refine ⟨by decide, ?_⟩
  rw [checkPlatforms_allKnown "ios,android,ios" (by decide)]
  rfl

/-- Claim C10: an empty-string platform filter (falsy in JS) and any
non-string filter value are treated exactly like no filter: selection succeeds
with all registry keys rather than failing on the empty token. -/
theorem checkPlatforms_emptyOrNonString (b : Bool) :
    checkPlatforms (PlatformsSetting.str "") = Except.ok platformsKeys ∧
    checkPlatforms (PlatformsSetting.nonString b) = Except.ok platformsKeys ∧
    checkPlatforms PlatformsSetting.undef = Except.ok platformsKeys := by
  refine ⟨rfl, ?_, rfl⟩
  cases b
  · rfl
  · rfl

/-- Claim C10 witness: a concrete non-string filter value selects all
registry keys. -/
theorem checkPlatforms_emptyOrNonString_witness :
    checkPlatforms (PlatformsSetting.nonString true) = Except.ok platformsKeys :=
  (checkPlatforms_emptyOrNonString true).2.1

/-- Claim C2 counterexample: the claim asserts the crop offset is the
truncating integer division of the dimension difference by 2; at image width
2732 and definition width 2731 the code computes `x = 1/2` (JS number
division), which differs from the truncating division `(2732 - 2731).tdiv 2 = 0`. -/
theorem splashCropRect_not_tdiv :
    ¬ ((splashCropRect 2732 2732 2731 2731).1 =
      ((((2732 : ℤ) - 2731).tdiv 2 : ℤ) : ℚ)) := by
  have ht : ((2732 : ℤ) - 2731).tdiv 2 = 0 := by decide
  rw [ht]
  norm_num [splashCropRect]

/-- Claim C2 amended: the crop rectangle is
`x = (imageWidth - definition.width) / 2, y = (imageHeight - definition.height) / 2,
w = definition.width, h = definition.height` where the division is exact JS
number division (no truncation): it coincides with the truncating integer
division when the dimension difference is even, and yields a non-integer
half-offset when the difference is odd. -/
theorem splashCropRect_exact (imageWidth imageHeight defWidth defHeight : ℤ) :
    (splashCropRect imageWidth imageHeight defWidth defHeight).1 =
        ((imageWidth - defWidth : ℤ) : ℚ) / 2 ∧
    (splashCropRect imageWidth imageHeight defWidth defHeight).2.1 =
        ((imageHeight - defHeight : ℤ) : ℚ) / 2 ∧
    (splashCropRect imageWidth imageHeight defWidth defHeight).2.2 =
        (defWidth, defHeight) ∧
    ((imageWidth - defWidth) % 2 = 0 →
      (splashCropRect imageWidth imageHeight defWidth defHeight).1 =
        (((imageWidth - defWidth) / 2 : ℤ) : ℚ)) ∧
    ((imageWidth - defWidth) % 2 ≠ 0 →
      ∀ z : ℤ, (splashCropRect imageWidth imageHeight defWidth defHeight).1 ≠ (z : ℚ)) := by
  refine ⟨by unfold splashCropRect; push_cast; ring,
    by unfold splashCropRect; push_cast; ring, rfl, ?_, ?_⟩
  · intro hmod
    obtain ⟨k, hk⟩ := Int.dvd_of_emod_eq_zero hmod
    unfold splashCropRect
    have hq : (imageWidth : ℚ) - (defWidth : ℚ) = ((imageWidth - defWidth : ℤ) : ℚ) := by
      push_cast
      ring
    rw [hq, hk]
    rw [Int.mul_ediv_cancel_left k (by decide)]
    push_cast
    ring
  · intro hmod z hz
    unfold splashCropRect at hz
    have hq : ((imageWidth - defWidth : ℤ) : ℚ) = 2 * (z : ℚ) := by
      push_cast
      push_cast at hz
      linarith [hz]
    have hzz : (imageWidth - defWidth : ℤ) = 2 * z := by
      exact_mod_cast hq
    apply hmod
    rw [hzz]
    simp [Int.mul_emod_right]

/-- Claim C2 amended witness: with definition width 2730 (even difference) the
offset is the integer division 1; with definition width 2731 (odd difference)
the offset is not the integer 0. -/
theorem splashCropRect_exact_witness :
    ((2732 : ℤ) - 2730) % 2 = 0 ∧
    (splashCropRect 2732 2732 2730 2730).1 = (((2732 - 2730 : ℤ) / 2 : ℤ) : ℚ) ∧
    ((2732 : ℤ) - 2731) % 2 ≠ 0 ∧
    (splashCropRect 2732 2732 2731 2731).1 ≠ ((0 : ℤ) : ℚ) :=
  ⟨by decide,
   (splashCropRect_exact 2732 2732 2730 2730).2.2.2.1 (by decide),
   by decide,
   (splashCropRect_exact 2732 2732 2731 2731).2.2.2.2 (by decide) 0⟩

/-- Helper: every write event of a definition series targets
`path.join(platformPath, definition.name)` for a definition of that
definitions. -/
theorem runDefinitions_writes (writeErr : String → Option String)
    (platformPath ty : String) (ds : List OutputDefinition) :
    ∀ e ∈ (runDefinitions writeErr platformPath ty ds).1,
      ∃ d ∈ ds, e = FsEvent.write (pathJoin platformPath d.name) := by
  induction ds with
  | nil =>
    intro e he
    simp [runDefinitions] at he
  | cons d ds ih =>
    intro e he
    unfold runDefinitions at he
    by_cases hty : ty = "icon" ∨ ty = "splash"
    · rw [if_pos hty] at he
      cases hw : writeErr (pathJoin platformPath d.name) with
      | some err =>
        rw [hw] at he
        simp at he
      | none =>
        rw [hw] at he
        simp only [List.mem_cons] at he
        cases he with
        | inl h =>
          exact ⟨d, List.mem_cons_self d ds, h⟩
        | inr h =>
          obtain ⟨d2, hd2, he2⟩ := ih e h
          exact ⟨d2, List.mem_cons_of_mem d hd2, he2⟩
    · rw [if_neg hty] at he
      obtain ⟨d2, hd2, he2⟩ := ih e he
      exact ⟨d2, List.mem_cons_of_mem d hd2, he2⟩

/-- Claim C8: for every generated image the output file path is
`<outputDirectory>/<definitionSet.path>/<definition.name>`, and the
subdirectory of the definition set is created recursively (the `ensureDir` event,
which is the first event of the set) before any definition of the set is
written. -/
theorem generateForConfig_layout (writeErr : String → Option String)
    (settings : Settings) (config : Config) :
    (generateForConfig writeErr settings config).1.head? =
      some (FsEvent.ensureDir (pathJoin settings.outputdirectory config.path)) ∧
    ∀ e ∈ (generateForConfig writeErr settings config).1.tail,
      ∃ d ∈ config.definitions,
        e = FsEvent.write
          (pathJoin (pathJoin settings.outputdirectory config.path) d.name) := by
  constructor
  · rfl
  · intro e he
    exact runDefinitions_writes writeErr
      (pathJoin settings.outputdirectory config.path) config.type
      config.definitions e he

/-- Claim C8 witness: with the android icon config under output directory
`out`, the first filesystem event is the recursive creation of
`out/icons/android`, and the first written file is
`out/icons/android/a.png` = `pathJoin (pathJoin "out" "icons/android") "a.png"`. -/
theorem generateForConfig_layout_witness :
    (generateForConfig (fun _ => none) sampleSettings cfgIconA).1.head? =
      some (FsEvent.ensureDir (pathJoin "out" "icons/android")) ∧
    FsEvent.write "out/icons/android/a.png" =
      FsEvent.write (pathJoin (pathJoin "out" "icons/android") "a.png") := by
  constructor
  · exact (generateForConfig_layout (fun _ => none) sampleSettings cfgIconA).1
  · rfl

/-- Helper: a definition series whose first failing write is at `d` emits
exactly the writes of the successful ones before `d`, and surfaces the error
of the failed write; the definitions after `d` are never attempted. -/
theorem runDefinitions_failFast (writeErr : String → Option String)
    (platformPath ty : String) (ds₁ : List OutputDefinition) (d : OutputDefinition)
    (ds₂ : List OutputDefinition) (e : String)
    (hty : ty = "icon" ∨ ty = "splash")
    (hok : ∀ d2 ∈ ds₁, writeErr (pathJoin platformPath d2.name) = none)
    (hfail : writeErr (pathJoin platformPath d.name) = some e) :
    runDefinitions writeErr platformPath ty (ds₁ ++ d :: ds₂) =
      (ds₁.map (fun d2 => FsEvent.write (pathJoin platformPath d2.name)), some e) := by
  induction ds₁ with
  | nil =>
    simp only [List.nil_append, List.map_nil]
    unfold runDefinitions
    rw [if_pos hty, hfail]
  | cons a as ih =>
    simp only [List.cons_append, List.map_cons]
    unfold runDefinitions
    rw [if_pos hty, hok a (List.mem_cons_self a as)]
    rw [ih (fun d2 h => hok d2 (List.mem_cons_of_mem a h))]

/-- Helper: when the series of a config succeeds, the engine appends its events
and moves on to the remaining configs. -/
theorem generate_cons_ok (w : String → Option String) (s : Settings)
    (c : Config) (rest : List Config)
    (h : (generateForConfig w s c).2 = none) :
    generate w s (c :: rest) =
      ((generateForConfig w s c).1 ++ (generate w s rest).1,
        (generate w s rest).2) := by
  simp only [generate]
  rw [h]

/-- Helper: when the series of a config fails, the engine stops with that same
events and error. -/
theorem generate_cons_fail (w : String → Option String) (s : Settings)
    (c : Config) (rest : List Config) (e : String)
    (h : (generateForConfig w s c).2 = some e) :
    generate w s (c :: rest) = ((generateForConfig w s c).1, some e) := by
  simp only [generate]
  rw [h]

/-- Helper: the engine runs an all-successful block of configs as a prefix
and continues with the rest. -/
theorem generate_okPrefix (w : String → Option String) (s : Settings)
    (cs₁ rest : List Config)
    (hok : ∀ c ∈ cs₁, (generateForConfig w s c).2 = none) :
    generate w s (cs₁ ++ rest) =
      ((cs₁.map (fun c => (generateForConfig w s c).1)).flatten ++
          (generate w s rest).1,
        (generate w s rest).2) := by
  induction cs₁ with
  | nil =>
    simp
  | cons c cs ih =>
    simp only [List.cons_append, List.map_cons, List.flatten_cons]
    rw [generate_cons_ok w s c (cs ++ rest) (hok c (List.mem_cons_self c cs))]
    rw [ih (fun c2 h => hok c2 (List.mem_cons_of_mem c h))]
    simp [List.append_assoc]

/-- Claim C3: any write or transform failure on one output definition is
raised immediately to the orchestrator and aborts generation of all remaining
definitions: the events of the engine stop at the writes that succeeded before the
failure (no retry of the failing definition, no events for the definitions or
configs after it, and the already-written files stay in place), the error of
the failing write is the result of the engine, and the settled
outcome is that error. -/
theorem generate_failFast (env : Env) (configsOf : List String → List Config)
    (settings : Settings) (plats : List String) (icon splash : Bitmap)
    (cs₁ : List Config) (config : Config) (cs₂ : List Config)
    (ds₁ : List OutputDefinition) (d : OutputDefinition)
    (ds₂ : List OutputDefinition) (e : String)
    (hrun : (runCheck env settings).2 = Except.ok (plats, icon, splash))
    (hconf : configsOf plats = cs₁ ++ config :: cs₂)
    (hdefs : config.definitions = ds₁ ++ d :: ds₂)
    (hty : config.type = "icon" ∨ config.type = "splash")
    (hok₁ : ∀ c ∈ cs₁, (generateForConfig env.writeErr settings c).2 = none)
    (hok₂ : ∀ d2 ∈ ds₁,
      env.writeErr
        (pathJoin (pathJoin settings.outputdirectory config.path) d2.name) = none)
    (hfail : env.writeErr
      (pathJoin (pathJoin settings.outputdirectory config.path) d.name) = some e) :
    generate env.writeErr settings (configsOf plats) =
      ((cs₁.map (fun c => (generateForConfig env.writeErr settings c).1)).flatten ++
          FsEvent.ensureDir (pathJoin settings.outputdirectory config.path) ::
            ds₁.map (fun d2 => FsEvent.write
              (pathJoin (pathJoin settings.outputdirectory config.path) d2.name)),
        some e) ∧
    (pipeline env configsOf settings).2 = Except.error e := by
  have hcfg : generateForConfig env.writeErr settings config =
      (FsEvent.ensureDir (pathJoin settings.outputdirectory config.path) ::
          ds₁.map (fun d2 => FsEvent.write
            (pathJoin (pathJoin settings.outputdirectory config.path) d2.name)),
        some e) := by
    unfold generateForConfig
    rw [hdefs]
    rw [runDefinitions_failFast env.writeErr
      (pathJoin settings.outputdirectory config.path) config.type ds₁ d ds₂ e
      hty hok₂ hfail]
  have hgen : generate env.writeErr settings (configsOf plats) =
      ((cs₁.map (fun c => (generateForConfig env.writeErr settings c).1)).flatten ++
          FsEvent.ensureDir (pathJoin settings.outputdirectory config.path) ::
            ds₁.map (fun d2 => FsEvent.write
              (pathJoin (pathJoin settings.outputdirectory config.path) d2.name)),
        some e) := by
    rw [hconf]
    rw [generate_okPrefix env.writeErr settings cs₁ (config :: cs₂) hok₁]
    rw [generate_cons_fail env.writeErr settings config cs₂ e (by rw [hcfg])]
    rw [hcfg]
  refine ⟨hgen, ?_⟩
  unfold pipeline
  rw [hrun]
  show (match (generate env.writeErr settings (configsOf plats)).2 with
    | some er => Except.error er
    | none => Except.ok ()) = Except.error e
  rw [hgen]

/-- Claim C3 witness: with the write of `out/icons/android/b.png` failing,
the run stops after creating the icon directory and writing `a.png`; the
third icon definition and the whole splash config are never processed, and
the orchestrator observes the error. -/
theorem generate_failFast_witness :
    generate envWriteFail.writeErr sampleSettings (configsOfFail platformsKeys) =
      ([FsEvent.ensureDir "out/icons/android",
        FsEvent.write "out/icons/android/a.png"], some "write failed") ∧
    (pipeline envWriteFail configsOfFail sampleSettings).2 =
      Except.error "write failed" := by
  have h := generate_failFast envWriteFail configsOfFail sampleSettings
    platformsKeys ⟨1024, 1024, []⟩ ⟨2732, 2732, []⟩
    [] cfgIconA [cfgSplashA] [defIconA] defIconB [defIconC] "write failed"
    rfl rfl rfl (Or.inl rfl) (by simp) (by decide) (by decide)
  exact ⟨h.1.trans (by decide), h.2⟩

/-- Claim C7: validation runs its checks strictly in the order platform
selection, icon check, splash check, output-directory check (the executed
trace is always a prefix of that order), and the first failing check aborts
all remaining checks; in particular a failing icon check means the splash
file is never checked. -/
theorem check_shortCircuits (env : Env) (settings : Settings) :
    (∃ n, (runCheck env settings).1 = stageOrder.take n) ∧
    (∀ e, checkPlatforms settings.platforms = Except.error e →
      (runCheck env settings).1 = [Stage.platforms] ∧
      (runCheck env settings).2 = Except.error e) ∧
    (∀ e, (∃ plats, checkPlatforms settings.platforms = Except.ok plats) →
      checkIconFile env settings = Except.error e →
      (runCheck env settings).1 = [Stage.platforms, Stage.icon] ∧
      Stage.splash ∉ (runCheck env settings).1 ∧
      Stage.outputDir ∉ (runCheck env settings).1 ∧
      (runCheck env settings).2 = Except.error e) ∧
    (∀ e, (∃ plats, checkPlatforms settings.platforms = Except.ok plats) →
      (∃ icon, checkIconFile env settings = Except.ok icon) →
      checkSplashFile env settings = Except.error e →
      (runCheck env settings).1 = [Stage.platforms, Stage.icon, Stage.splash] ∧
      Stage.outputDir ∉ (runCheck env settings).1 ∧
      (runCheck env settings).2 = Except.error e) := by
  refine ⟨?_, ?_, ?_, ?_⟩
  · cases hp : checkPlatforms settings.platforms with
    | error e => exact ⟨1, by simp [runCheck, hp, stageOrder]⟩
    | ok plats =>
      cases hi : checkIconFile env settings with
      | error e => exact ⟨2, by simp [runCheck, hp, hi, stageOrder]⟩
      | ok icon =>
        cases hsp : checkSplashFile env settings with
        | error e => exact ⟨3, by simp [runCheck, hp, hi, hsp, stageOrder]⟩
        | ok splash =>
          cases ho : checkOutPutDir env settings with
          | error e => exact ⟨4, by simp [runCheck, hp, hi, hsp, ho, stageOrder]⟩
          | ok u => exact ⟨4, by simp [runCheck, hp, hi, hsp, ho, stageOrder]⟩
  · intro e hp
    constructor
    · simp [runCheck, hp]
    · simp [runCheck, hp]
  · rintro e ⟨plats, hp⟩ hi
    refine ⟨?_, ?_, ?_, ?_⟩ <;> simp [runCheck, hp, hi]
  · rintro e ⟨plats, hp⟩ ⟨icon, hi⟩ hsp
    refine ⟨?_, ?_, ?_⟩ <;> simp [runCheck, hp, hi, hsp]

/-- Claim C7 witness: with a 512x512 icon, validation stops after the icon
check with the dimension error; the splash check never runs. -/
theorem check_shortCircuits_witness :
    (runCheck envBadIcon sampleSettings).1 = [Stage.platforms, Stage.icon] ∧
    Stage.splash ∉ (runCheck envBadIcon sampleSettings).1 ∧
    (runCheck envBadIcon sampleSettings).2 = Except.error "Bad image format" := by
  have h := (check_shortCircuits envBadIcon sampleSettings).2.2.1 "Bad image format"
    ⟨platformsKeys, rfl⟩ rfl
  exact ⟨h.1, h.2.1, h.2.2.2⟩

/-- Helper: a filter containing an unknown token makes the filter branch
reject. -/
theorem filterPlatforms_unknown (s : String)
    (h : ∃ t ∈ splitComma s, t ∉ platformsKeys) :
    ∃ e, filterPlatforms s = Except.error e := by
  obtain ⟨t, ht, hnk⟩ := h
  have hcont : platformsKeys.contains t = false := by
    cases hc : platformsKeys.contains t
    · rfl
    · exact absurd (List.elem_iff.mp hc) hnk
  have hmem : t ∈ (splitComma s).filter (fun p => !platformsKeys.contains p) := by
    rw [List.mem_filter]
    refine ⟨ht, ?_⟩
    rw [hcont]
    rfl
  have hlen :
      ((splitComma s).filter (fun p => !platformsKeys.contains p)).length > 0 :=
    List.length_pos.mpr (List.ne_nil_of_mem hmem)
  refine ⟨"Bad platforms: " ++ String.intercalate ","
    ((splitComma s).filter (fun p => !platformsKeys.contains p)), ?_⟩
  unfold filterPlatforms
  rw [if_pos hlen]

/-- Claim C5: a platform filter containing at least one unknown token makes
selection fail (no partial selection is produced), and the pipeline settles
with an error before any filesystem event happens: no output file is
written. -/
theorem pipeline_unknownPlatform (env : Env) (configsOf : List String → List Config)
    (settings : Settings) (fil : String)
    (hfil : settings.platforms = PlatformsSetting.str fil)
    (htruthy : jsTruthy (PlatformsSetting.str fil) = true)
    (hunknown : ∃ t ∈ splitComma fil, t ∉ platformsKeys) :
    (∃ e, checkPlatforms settings.platforms = Except.error e) ∧
    (pipeline env configsOf settings).1 = [] ∧
    (∃ e, (pipeline env configsOf settings).2 = Except.error e) := by
  obtain ⟨e, he⟩ := filterPlatforms_unknown fil hunknown
  have hcp : checkPlatforms settings.platforms = Except.error e := by
    rw [hfil]
    unfold checkPlatforms
    rw [if_neg]
    · exact he
    · intro hor
      cases hor with
      | inl hl => exact hl htruthy
      | inr hr => exact hr rfl
  have hrc : (runCheck env settings).2 = Except.error e := by
    simp [runCheck, hcp]
  refine ⟨⟨e, hcp⟩, ?_, ⟨e, ?_⟩⟩
  · unfold pipeline
    rw [hrc]
  · unfold pipeline
    rw [hrc]

/-- Claim C5 witness: the filter `"android,bogus"` aborts the run with an
empty filesystem trace even though the registry lookup could have served the
android icon config. -/
theorem pipeline_unknownPlatform_witness :
    (pipeline envGood configsOfSample settingsUnknown).1 = [] :=
  (pipeline_unknownPlatform envGood configsOfSample settingsUnknown
    "android,bogus" rfl (by decide) (by decide)).2.1

/-- Helper: reading below the original heap length is unaffected by cells
appended past the end. -/
theorem heapGet_append_lt (l l2 : List Bitmap) (r : Nat) (h : r < l.length) :
    heapGet (l ++ l2) r = heapGet l r := by
  induction l generalizing r with
  | nil => exact absurd h (Nat.not_lt_zero r)
  | cons b t ih =>
    cases r with
    | zero => rfl
    | succ n => exact ih n (Nat.lt_of_succ_lt_succ h)

/-- Helper: mutating the freshly appended cell rewrites only that cell. -/
theorem heapSet_append_singleton (l : List Bitmap) (c b : Bitmap) :
    heapSet (l ++ [c]) l.length b = l ++ [b] := by
  induction l with
  | nil => rfl
  | cons a t ih =>
    simp only [List.cons_append, List.length_cons, heapSet]
    exact congrArg (fun x => a :: x) ih

/-- Helper: every transform step only appends to the heap (the clone is
allocated fresh and only the clone is mutated), so existing cells are
untouched. -/
theorem generateStep_extends (resizeOp : Nat → Nat → Bitmap → Bitmap)
    (cropOp : ℚ → ℚ → ℤ → ℤ → Bitmap → Bitmap) (iconRef splashRef : Nat)
    (heap : List Bitmap) (st : String × OutputDefinition) :
    ∃ tail, generateStep resizeOp cropOp iconRef splashRef heap st = heap ++ tail := by
  unfold generateStep
  by_cases h1 : st.1 = "icon"
  · rw [if_pos h1]
    unfold transformIconImage
    exact ⟨_, heapSet_append_singleton heap _ _⟩
  · rw [if_neg h1]
    by_cases h2 : st.1 = "splash"
    · rw [if_pos h2]
      unfold transformSplashImage
      exact ⟨_, heapSet_append_singleton heap _ _⟩
    · rw [if_neg h2]
      exact ⟨[], (List.append_nil heap).symm⟩

/-- Claim C9: the source icon and splash images are never mutated by
generation: every output definition operates on a fresh clone, so after
processing any sequence of definitions the two source cells hold exactly the
bitmaps loaded during validation, for every resize and crop semantics of the
image library. -/
theorem generateImages_preservesSources (resizeOp : Nat → Nat → Bitmap → Bitmap)
    (cropOp : ℚ → ℚ → ℤ → ℤ → Bitmap → Bitmap) (iconRef splashRef : Nat)
    (steps : List (String × OutputDefinition)) (heap : List Bitmap)
    (hi : iconRef < heap.length) (hs : splashRef < heap.length) :
    heapGet (generateImages resizeOp cropOp iconRef splashRef heap steps) iconRef =
      heapGet heap iconRef ∧
    heapGet (generateImages resizeOp cropOp iconRef splashRef heap steps) splashRef =
      heapGet heap splashRef := by
  induction steps generalizing heap with
  | nil => exact ⟨rfl, rfl⟩
  | cons st sts ih =>
    obtain ⟨tail, htail⟩ := generateStep_extends resizeOp cropOp iconRef splashRef heap st
    have hlen : heap.length ≤
        (generateStep resizeOp cropOp iconRef splashRef heap st).length := by
      rw [htail]
      simp
    obtain ⟨ih1, ih2⟩ := ih (generateStep resizeOp cropOp iconRef splashRef heap st)
      (Nat.lt_of_lt_of_le hi hlen) (Nat.lt_of_lt_of_le hs hlen)
    constructor
    · simp only [generateImages]
      rw [ih1, htail, heapGet_append_lt heap tail iconRef hi]
    · simp only [generateImages]
      rw [ih2, htail, heapGet_append_lt heap tail splashRef hs]

/-- Claim C9 witness: after one icon step and one splash step the two source
cells still hold the originally decoded bitmaps. -/
theorem generateImages_preservesSources_witness :
    0 < heapInit.length ∧ 1 < heapInit.length ∧
    heapGet (generateImages resizeOpSample cropOpSample 0 1 heapInit stepsSample) 0 =
      heapGet heapInit 0 ∧
    heapGet (generateImages resizeOpSample cropOpSample 0 1 heapInit stepsSample) 1 =
      heapGet heapInit 1 := by
  have h := generateImages_preservesSources resizeOpSample cropOpSample 0 1
    stepsSample heapInit (by decide) (by decide)
  exact ⟨by decide, by decide, h.1, h.2⟩

end CapacitorResources
